import Mathlib

/-!
Shallow embedding of the Idol runtime support crate (src/runtime/src/lib.rs):
the generic server dispatch loops and the capability-typed lease handles
with their accessors.

Modelling conventions:

* Machine integers: usize is modelled as Nat with an explicit bound
  USIZE_MAX = 2^32 - 1 (the runtime targets 32-bit embedded systems);
  Rust checked arithmetic becomes Option, plain subtraction is modelled
  with overflow checks enabled (the firmware build profile for this
  runtime compiles with overflow checks, so underflow aborts rather than
  wrapping), and division/remainder panic on a zero divisor as in Rust.
* Fallible computations return PRes: ok, recoverable failure (the source
  returns None or Err(())), or panic (abort).
* Kernel syscalls are uninterpreted oracles: sys_borrow_info is an
  Option BorrowInfo argument; sys_borrow_read / sys_borrow_write are
  functions from the call arguments (lender, lease index, byte offset,
  buffer byte length) to a (status, bytes-copied) pair; sys_recv is an
  Except Unit RecvMessage argument; sys_reply calls are recorded in the
  dispatch trace.
* Type-level data: size_of of the phantom element type is passed as an
  explicit Nat parameter; buffers and slices are represented by their
  element counts where only the length matters, and the scratch buffer
  of the dispatch loops by a List Nat of bytes.
-/

namespace Idol

/-- Maximum usize value on the 32-bit targets this runtime serves. -/
def USIZE_MAX : Nat := 2 ^ 32 - 1

/-- Rust usize checked_mul: some product when it fits in usize, none on
overflow. -/
def checked_mul (a b : Nat) : Option Nat :=
  if a * b ≤ USIZE_MAX then some (a * b) else none

/-- Outcome of a fallible runtime computation: success, recoverable failure
(None or Err in the source), or a panic (abort). -/
inductive PRes (α : Type) where
  | ok (v : α)
  | fail
  | panic
  deriving Repr, DecidableEq

/-- Rust usize subtraction under this firmware's build profile, which enables
overflow checks: underflow aborts (panics) and never wraps. -/
def usizeSub (a b : Nat) : PRes Nat :=
  if b ≤ a then .ok (a - b) else .panic

/-- Rust usize remainder: panics on a zero divisor. -/
def usizeRem (a b : Nat) : PRes Nat :=
  if b = 0 then .panic else .ok (a % b)

/-- Rust usize division: panics on a zero divisor. -/
def usizeDiv (a b : Nat) : PRes Nat :=
  if b = 0 then .panic else .ok (a / b)

/-- LeaseAttributes::READ bit. -/
def ATTR_READ : Nat := 1

/-- LeaseAttributes::WRITE bit. -/
def ATTR_WRITE : Nat := 2

/-- LeaseAttributes::contains: bitmask superset test. -/
def containsAttrs (attrs req : Nat) : Bool :=
  attrs &&& req == req

/-- Result of sys_borrow_info: byte length and attribute bits of the loaned
region. -/
structure BorrowInfo where
  len : Nat
  attributes : Nat
  deriving Repr, DecidableEq

/-- The Leased handle: lender task id, index into the lender's lease table,
and the cached element count. The access-capability tag and the element type
are phantom (compile-time only) in the source, so they do not appear here;
size_of of the element type is passed to each operation explicitly. -/
structure Leased where
  lender : Nat
  index : Nat
  len : Nat
  deriving Repr, DecidableEq

/-- Leased::check_sized, for Sized element types. Takes the element size
size_of T and the sys_borrow_info result for (lender, index). -/
def check_sized (sizeT : Nat) (required_atts : Nat)
    (info? : Option BorrowInfo) : Option Unit :=
  match info? with
  | none => none
  | some info =>
    if ¬ containsAttrs info.attributes required_atts then none
    else if info.len ≠ sizeT then none
    else some ()

/-- Leased::check_slice, for slice element types. Takes the element size
size_of T, the optional maximum element count, and the sys_borrow_info
result. Returns the validated element count on success. The remainder and
division on info.len are the Rust operators, which panic on a zero divisor. -/
def check_slice (sizeT : Nat) (required_atts : Nat) (max_len : Option Nat)
    (info? : Option BorrowInfo) : PRes Nat :=
  match info? with
  | none => .fail
  | some info =>
    if ¬ containsAttrs info.attributes required_atts then .fail
    else
      match usizeRem info.len sizeT with
      | .panic => .panic
      | .fail => .fail
      | .ok r =>
        if r ≠ 0 then .fail
        else
          match usizeDiv info.len sizeT with
          | .panic => .panic
          | .fail => .fail
          | .ok len =>
            match max_len with
            | some m => if len > m then .fail else .ok len
            | none => .ok len

/-- Leased::<R, T>::read_only: single-element read-only constructor. -/
def read_only (lender index sizeT : Nat) (info? : Option BorrowInfo) :
    Option Leased :=
  match check_sized sizeT ATTR_READ info? with
  | none => none
  | some _ => some { lender := lender, index := index, len := 1 }

/-- Leased::<W, T>::write_only: single-element write-only constructor. -/
def write_only (lender index sizeT : Nat) (info? : Option BorrowInfo) :
    Option Leased :=
  match check_sized sizeT ATTR_WRITE info? with
  | none => none
  | some _ => some { lender := lender, index := index, len := 1 }

/-- Leased::<R, [T]>::read_only_slice: read-only slice constructor. -/
def read_only_slice (lender index sizeT : Nat) (max_len : Option Nat)
    (info? : Option BorrowInfo) : PRes Leased :=
  match check_slice sizeT ATTR_READ max_len info? with
  | .panic => .panic
  | .fail => .fail
  | .ok len => .ok { lender := lender, index := index, len := len }

/-- Leased::<W, [T]>::write_only_slice: write-only slice constructor. -/
def write_only_slice (lender index sizeT : Nat) (max_len : Option Nat)
    (info? : Option BorrowInfo) : PRes Leased :=
  match check_slice sizeT ATTR_WRITE max_len info? with
  | .panic => .panic
  | .fail => .fail
  | .ok len => .ok { lender := lender, index := index, len := len }

/-- Model of one raw borrow-copy syscall (sys_borrow_read or
sys_borrow_write): an uninterpreted function of the call arguments
(lender task id, lease index, byte offset, buffer byte length) returning
the (status, bytes-copied) pair. -/
def BorrowKernel : Type := Nat → Nat → Nat → Nat → Nat × Nat

/-- Shared tail of every accessor in the source: the call reports success
only when the syscall status is 0 and the copied byte count equals the
expected length; anything else is the recoverable failure value. -/
def copyOutcome (resp : Nat × Nat) (expected : Nat) : PRes Unit :=
  if resp.1 ≠ 0 ∨ resp.2 ≠ expected then .fail else .ok ()

/-- Leased::<A, T>::read for readable Sized leases: reads size_of T bytes at
offset 0 into a zeroed temporary; None (here .fail) unless the copy returns
exactly size_of T bytes with status 0. -/
def Leased.read (l : Leased) (sizeT : Nat) (k : BorrowKernel) : PRes Unit :=
  copyOutcome (k l.lender l.index 0 sizeT) sizeT

/-- Leased::<A, [T]>::read_at: asserts the index is in bounds (panic
otherwise), computes the offset with checked_mul (the question-mark operator
turns overflow into None, here .fail), then copies one element. -/
def Leased.read_at (l : Leased) (sizeT i : Nat) (k : BorrowKernel) :
    PRes Unit :=
  if ¬ i < l.len then .panic
  else
    match checked_mul sizeT i with
    | none => .fail
    | some offset => copyOutcome (k l.lender l.index offset sizeT) sizeT

/-- Leased::<A, [T]>::read_range: offset and expected length computed with
checked_mul (overflow becomes Err, here .fail); the element count is the
Rust subtraction range.end - range.start, which aborts on underflow; the
whole dest buffer (destLen elements, destLen * sizeT bytes) is passed to
the syscall. There is no bounds check against the lease length. -/
def Leased.read_range (l : Leased) (sizeT start stop destLen : Nat)
    (k : BorrowKernel) : PRes Unit :=
  match checked_mul sizeT start with
  | none => .fail
  | some offset =>
    match usizeSub stop start with
    | .panic => .panic
    | .fail => .fail
    | .ok count =>
      match checked_mul sizeT count with
      | none => .fail
      | some expected_len =>
        copyOutcome (k l.lender l.index offset (destLen * sizeT)) expected_len

/-- Leased::<A, T>::write for writable Sized leases: writes size_of T bytes
at offset 0; Err (here .fail) unless the copy returns exactly size_of T
bytes with status 0. -/
def Leased.write (l : Leased) (sizeT : Nat) (k : BorrowKernel) : PRes Unit :=
  copyOutcome (k l.lender l.index 0 sizeT) sizeT

/-- Leased::<A, [T]>::write_at: computes the offset with checked_mul
(overflow becomes Err, here .fail) and copies one element. Note the source
has no bounds assertion here, unlike read_at. -/
def Leased.write_at (l : Leased) (sizeT i : Nat) (k : BorrowKernel) :
    PRes Unit :=
  match checked_mul sizeT i with
  | none => .fail
  | some offset => copyOutcome (k l.lender l.index offset sizeT) sizeT

/-- Leased::<A, [T]>::write_range: mirror of read_range on the write side;
the whole src buffer (srcLen elements) is passed to the syscall and there is
no bounds check against the lease length. -/
def Leased.write_range (l : Leased) (sizeT start stop srcLen : Nat)
    (k : BorrowKernel) : PRes Unit :=
  match checked_mul sizeT start with
  | none => .fail
  | some offset =>
    match usizeSub stop start with
    | .panic => .panic
    | .fail => .fail
    | .ok count =>
      match checked_mul sizeT count with
      | none => .fail
      | some expected_len =>
        copyOutcome (k l.lender l.index offset (srcLen * sizeT)) expected_len

/-- The fields of userlib RecvMessage that the dispatch loops consult. -/
structure RecvMessage where
  sender : Nat
  operation : Nat
  message_len : Nat
  response_capacity : Nat
  deriving Repr, DecidableEq

/-- TaskId::KERNEL. -/
def KERNEL_TASK : Nat := 0xFFFF

/-- Observable behaviour of one call to a dispatch loop: the replies the
loop itself emitted (sender, status code, payload bytes), whether the
handler's handle method ran, notification bits forwarded to the
notification hook, whether the closed-receive-failure hook ran, and whether
the call panicked. -/
structure DispatchTrace where
  replies : List (Nat × Nat × List Nat)
  handlerInvoked : Bool
  notified : Option Nat
  closedFail : Bool
  panicked : Bool
  deriving Repr, DecidableEq

/-- The dispatch function, generic over the operation type. from_u32 and
max_reply_size come from the ServerOp impl; the handler is the Server impl
(Err code asks the loop to reply with that code and an empty payload); the
scratch buffer is a byte list; the sys_recv outcome is passed in. -/
def dispatch {Op : Type} (fromU32 : Nat → Option Op) (maxReply : Op → Nat)
    (handler : Op → List Nat → RecvMessage → Except Nat Unit)
    (buffer : List Nat) (recv : Except Unit RecvMessage) : DispatchTrace :=
  match recv with
  | .error _ =>
    { replies := [], handlerInvoked := false, notified := none,
      closedFail := true, panicked := false }
  | .ok rm =>
    match fromU32 rm.operation with
    | none =>
      { replies := [(rm.sender, 1, [])], handlerInvoked := false,
        notified := none, closedFail := false, panicked := false }
    | some op =>
      if buffer.length < rm.message_len ∨ rm.response_capacity < maxReply op
      then
        { replies := [(rm.sender, 2, [])], handlerInvoked := false,
          notified := none, closedFail := false, panicked := false }
      else
        match handler op (buffer.take rm.message_len) rm with
        | .ok _ =>
          { replies := [], handlerInvoked := true, notified := none,
            closedFail := false, panicked := false }
        | .error code =>
          { replies := [(rm.sender, code, [])], handlerInvoked := true,
            notified := none, closedFail := false, panicked := false }

/-- The dispatch_n function: kernel-originated messages are routed to the
notification hook; otherwise the source slices buffer[..message_len] before
resolving the operation, which panics when the message is longer than the
scratch buffer, and then checks only the reply capacity before invoking the
handler. -/
def dispatch_n {Op : Type} (fromU32 : Nat → Option Op) (maxReply : Op → Nat)
    (handler : Op → List Nat → RecvMessage → Except Nat Unit)
    (buffer : List Nat) (recv : Except Unit RecvMessage) : DispatchTrace :=
  match recv with
  | .error _ =>
    { replies := [], handlerInvoked := false, notified := none,
      closedFail := true, panicked := false }
  | .ok rm =>
    if rm.sender = KERNEL_TASK then
      { replies := [], handlerInvoked := false,
        notified := some rm.operation, closedFail := false,
        panicked := false }
    else if buffer.length < rm.message_len then
      { replies := [], handlerInvoked := false, notified := none,
        closedFail := false, panicked := true }
    else
      match fromU32 rm.operation with
      | none =>
        { replies := [(rm.sender, 1, [])], handlerInvoked := false,
          notified := none, closedFail := false, panicked := false }
      | some op =>
        if rm.response_capacity < maxReply op then
          { replies := [(rm.sender, 2, [])], handlerInvoked := false,
            notified := none, closedFail := false, panicked := false }
        else
          match handler op (buffer.take rm.message_len) rm with
          | .ok _ =>
            { replies := [], handlerInvoked := true, notified := none,
              closedFail := false, panicked := false }
          | .error code =>
            { replies := [(rm.sender, code, [])], handlerInvoked := true,
              notified := none, closedFail := false, panicked := false }

/-! Helper lemmas shared by the claim theorems. -/

theorem check_slice_ok_iff (sizeT req : Nat) (max_len : Option Nat)
    (info : BorrowInfo) (hS : sizeT ≠ 0)
    (hA : containsAttrs info.attributes req = true) :
    (check_slice sizeT req max_len (some info) =
        .ok (info.len / sizeT) ↔
      info.len % sizeT = 0 ∧ ∀ m, max_len = some m → info.len / sizeT ≤ m) ∧
    (check_slice sizeT req max_len (some info) =
        .ok (info.len / sizeT) ∨
      check_slice sizeT req max_len (some info) = .fail) := by
  simp only [check_slice, usizeRem, usizeDiv, hA, hS, if_false, not_true,
    ite_false]
  by_cases hmod : info.len % sizeT = 0
  · cases max_len with
    | none => simp [hmod]
    | some m =>
      by_cases hle : info.len / sizeT ≤ m
      · have hgt : ¬ info.len / sizeT > m := by omega
        simp only [hmod, hgt, if_false, true_and, Option.some.injEq,
          forall_eq']
        constructor
        · constructor
          · intro _
            exact hle
          · intro _
            rfl
        · left
          rfl
      · have hgt : info.len / sizeT > m := by omega
        simp only [hgt, if_true, ite_true]
        constructor
        · constructor
          · intro h
            exact absurd h (by simp)
          · intro h
            exact absurd (h.2 m rfl) hle
        · right
          simp [hmod]
  · simp [hmod]

theorem read_range_eq (l : Leased) (sizeT start stop destLen : Nat)
    (k : BorrowKernel) (h1 : sizeT * start ≤ USIZE_MAX) (h2 : start ≤ stop)
    (h3 : sizeT * (stop - start) ≤ USIZE_MAX) :
    l.read_range sizeT start stop destLen k =
      copyOutcome (k l.lender l.index (sizeT * start) (destLen * sizeT))
        (sizeT * (stop - start)) := by
  simp [Leased.read_range, checked_mul, usizeSub, h1, h2, h3]

theorem write_range_eq (l : Leased) (sizeT start stop srcLen : Nat)
    (k : BorrowKernel) (h1 : sizeT * start ≤ USIZE_MAX) (h2 : start ≤ stop)
    (h3 : sizeT * (stop - start) ≤ USIZE_MAX) :
    l.write_range sizeT start stop srcLen k =
      copyOutcome (k l.lender l.index (sizeT * start) (srcLen * sizeT))
        (sizeT * (stop - start)) := by
  simp [Leased.write_range, checked_mul, usizeSub, h1, h2, h3]

theorem copyOutcome_ok_iff (resp : Nat × Nat) (expected : Nat) :
    copyOutcome resp expected = .ok () ↔
      resp.1 = 0 ∧ resp.2 = expected := by
  unfold copyOutcome
  split
  · next h =>
    constructor
    · intro hk
      exact absurd hk (by simp)
    · intro hk
      rcases h with h | h
      · exact absurd hk.1 h
      · exact absurd hk.2 h
  · next h =>
    push_neg at h
    exact ⟨fun _ => ⟨h.1, h.2⟩, fun _ => rfl⟩

theorem copyOutcome_ok_or_fail (resp : Nat × Nat) (expected : Nat) :
    copyOutcome resp expected = .ok () ∨ copyOutcome resp expected = .fail := by
  unfold copyOutcome
  split
  · right
    rfl
  · left
    rfl

/-- C2: the spec (and the doc comment on write_at itself) says read_at and
write_at abort when the index is at or past len(); read_at does (first
conjunct, for every kernel behaviour), but write_at on a one-element lease
at index 5 has no bounds assertion: it performs the raw copy and returns the
recoverable Err when the kernel fails, and even Ok when the kernel reports a
full copy — never a panic. -/
theorem write_at_unchecked_eval :
    (∀ k : BorrowKernel,
      Leased.read_at { lender := 2, index := 0, len := 1 } 4 5 k = .panic) ∧
    Leased.write_at { lender := 2, index := 0, len := 1 } 4 5
        (fun _ _ _ _ => (5, 0)) = .fail ∧
    Leased.write_at { lender := 2, index := 0, len := 1 } 4 5
        (fun _ _ _ _ => (0, 4)) = .ok () := by
  refine ⟨fun k => ?_, by decide, by decide⟩
  simp [Leased.read_at]

/-- C3: the spec (and the doc comments on read_range and write_range) says a
range reaching past len() aborts; on a one-element lease with range 0..5
neither function checks bounds: both perform the raw copy, return the
recoverable failure when the kernel copies fewer than the 20 requested
bytes, and even succeed when the kernel reports 20 — never a panic. -/
theorem range_unchecked_eval :
    Leased.read_range { lender := 2, index := 0, len := 1 } 4 0 5 5
        (fun _ _ _ _ => (0, 4)) = .fail ∧
    Leased.read_range { lender := 2, index := 0, len := 1 } 4 0 5 5
        (fun _ _ _ _ => (0, 20)) = .ok () ∧
    Leased.write_range { lender := 2, index := 0, len := 1 } 4 0 5 5
        (fun _ _ _ _ => (0, 4)) = .fail ∧
    Leased.write_range { lender := 2, index := 0, len := 1 } 4 0 5 5
        (fun _ _ _ _ => (0, 20)) = .ok () := by
  refine ⟨by decide, by decide, by decide, by decide⟩

/-- C4: for every leased slice handle, read_range and write_range with
range.start > range.end never wrap the length arithmetic: the call aborts at
the checked subtraction (or has already failed cleanly when the offset
multiplication overflows), the result is the same for every kernel
behaviour (so no raw copy outcome is ever observed), and an overflowing
offset or length multiplication yields the clean recoverable failure. -/
theorem range_reversed_rejected :
    (∀ (l : Leased) (sizeT start stop n : Nat) (k k' : BorrowKernel),
      stop < start →
        (l.read_range sizeT start stop n k = .panic ∨
          l.read_range sizeT start stop n k = .fail) ∧
        l.read_range sizeT start stop n k =
          l.read_range sizeT start stop n k' ∧
        (l.write_range sizeT start stop n k = .panic ∨
          l.write_range sizeT start stop n k = .fail) ∧
        l.write_range sizeT start stop n k =
          l.write_range sizeT start stop n k') ∧
    (∀ (l : Leased) (sizeT start stop n : Nat) (k : BorrowKernel),
      USIZE_MAX < sizeT * start →
        l.read_range sizeT start stop n k = .fail ∧
        l.write_range sizeT start stop n k = .fail) ∧
    (∀ (l : Leased) (sizeT start stop n : Nat) (k : BorrowKernel),
      sizeT * start ≤ USIZE_MAX → start ≤ stop →
      USIZE_MAX < sizeT * (stop - start) →
        l.read_range sizeT start stop n k = .fail ∧
        l.write_range sizeT start stop n k = .fail) := by
  refine ⟨?_, ?_, ?_⟩
  · intro l sizeT start stop n k k' h
    have hns : ¬ start ≤ stop := by omega
    by_cases hm : sizeT * start ≤ USIZE_MAX <;>
      simp [Leased.read_range, Leased.write_range, checked_mul, usizeSub,
        hm, hns]
  · intro l sizeT start stop n k h
    have hm : ¬ sizeT * start ≤ USIZE_MAX := by omega
    simp [Leased.read_range, Leased.write_range, checked_mul, hm]
  · intro l sizeT start stop n k h1 h2 h3
    have hm : ¬ sizeT * (stop - start) ≤ USIZE_MAX := by omega
    simp [Leased.read_range, Leased.write_range, checked_mul, usizeSub,
      h1, h2, hm]

/-- C4 witness at start = 2 > stop = 1: the checked subtraction aborts and
the result does not depend on the kernel. -/
theorem range_reversed_rejected_witness :
    (1 : Nat) < 2 ∧
    (Leased.read_range ⟨1, 0, 3⟩ 4 2 1 0 (fun _ _ _ _ => (0, 0)) = .panic ∨
      Leased.read_range ⟨1, 0, 3⟩ 4 2 1 0 (fun _ _ _ _ => (0, 0)) = .fail) :=
  ⟨by decide,
    (range_reversed_rejected.1 ⟨1, 0, 3⟩ 4 2 1 0 (fun _ _ _ _ => (0, 0))
      (fun _ _ _ _ => (0, 0)) (by decide)).1⟩

/-- C8: every accessor reduces, once its own precondition checks pass, to
the shared copy outcome on the exact syscall arguments: success iff the
status is 0 and the copied count equals the expected byte length, and every
other syscall outcome is the recoverable failure (copyOutcome never
panics). -/
theorem accessor_copy_contract :
    (∀ (l : Leased) (sizeT : Nat) (k : BorrowKernel),
      l.read sizeT k = copyOutcome (k l.lender l.index 0 sizeT) sizeT) ∧
    (∀ (l : Leased) (sizeT : Nat) (k : BorrowKernel),
      l.write sizeT k = copyOutcome (k l.lender l.index 0 sizeT) sizeT) ∧
    (∀ (l : Leased) (sizeT i : Nat) (k : BorrowKernel),
      i < l.len → sizeT * i ≤ USIZE_MAX →
      l.read_at sizeT i k =
        copyOutcome (k l.lender l.index (sizeT * i) sizeT) sizeT) ∧
    (∀ (l : Leased) (sizeT i : Nat) (k : BorrowKernel),
      sizeT * i ≤ USIZE_MAX →
      l.write_at sizeT i k =
        copyOutcome (k l.lender l.index (sizeT * i) sizeT) sizeT) ∧
    (∀ (l : Leased) (sizeT start stop destLen : Nat) (k : BorrowKernel),
      sizeT * start ≤ USIZE_MAX → start ≤ stop →
      sizeT * (stop - start) ≤ USIZE_MAX →
      l.read_range sizeT start stop destLen k =
        copyOutcome (k l.lender l.index (sizeT * start) (destLen * sizeT))
          (sizeT * (stop - start))) ∧
    (∀ (l : Leased) (sizeT start stop srcLen : Nat) (k : BorrowKernel),
      sizeT * start ≤ USIZE_MAX → start ≤ stop →
      sizeT * (stop - start) ≤ USIZE_MAX →
      l.write_range sizeT start stop srcLen k =
        copyOutcome (k l.lender l.index (sizeT * start) (srcLen * sizeT))
          (sizeT * (stop - start))) ∧
    (∀ (resp : Nat × Nat) (expected : Nat),
      (copyOutcome resp expected = .ok () ↔
        resp.1 = 0 ∧ resp.2 = expected) ∧
      (copyOutcome resp expected = .ok () ∨
        copyOutcome resp expected = .fail)) := by
  refine ⟨fun l sizeT k => rfl, fun l sizeT k => rfl, ?_, ?_, ?_, ?_, ?_⟩
  · intro l sizeT i k hi hm
    simp [Leased.read_at, checked_mul, hi, hm]
  · intro l sizeT i k hm
    simp [Leased.write_at, checked_mul, hm]
  · intro l sizeT start stop destLen k h1 h2 h3
    exact read_range_eq l sizeT start stop destLen k h1 h2 h3
  · intro l sizeT start stop srcLen k h1 h2 h3
    exact write_range_eq l sizeT start stop srcLen k h1 h2 h3
  · intro resp expected
    exact ⟨copyOutcome_ok_iff resp expected, copyOutcome_ok_or_fail resp expected⟩

/-- C8 witness at a concrete in-bounds read_at call. -/
theorem accessor_copy_contract_witness :
    (1 : Nat) < 3 ∧ 4 * 1 ≤ USIZE_MAX ∧
    Leased.read_at ⟨1, 0, 3⟩ 4 1 (fun _ _ _ _ => (0, 4)) =
      copyOutcome ((fun _ _ _ _ => ((0 : Nat), (4 : Nat))) 1 0 (4 * 1) 4) 4 :=
  ⟨by decide, by decide,
    accessor_copy_contract.2.2.1 ⟨1, 0, 3⟩ 4 1 (fun _ _ _ _ => (0, 4))
      (by decide) (by decide)⟩

/-- C10: read_range and write_range never check the caller-supplied buffer
against the requested range: the whole buffer (destLen * sizeT bytes) is
handed to the raw copy syscall, success is exactly a status of 0 with a
reported count of (stop - start) * sizeT bytes, any other syscall outcome
is the recoverable failure, and under a fixed syscall response the result
is independent of the buffer length. -/
theorem range_ignores_buffer_len :
    (∀ (l : Leased) (sizeT start stop destLen : Nat) (k : BorrowKernel),
      sizeT * start ≤ USIZE_MAX → start ≤ stop →
      sizeT * (stop - start) ≤ USIZE_MAX →
      (l.read_range sizeT start stop destLen k = .ok () ↔
        (k l.lender l.index (sizeT * start) (destLen * sizeT)).1 = 0 ∧
        (k l.lender l.index (sizeT * start) (destLen * sizeT)).2 =
          sizeT * (stop - start)) ∧
      (l.read_range sizeT start stop destLen k = .ok () ∨
        l.read_range sizeT start stop destLen k = .fail)) ∧
    (∀ (l : Leased) (sizeT start stop srcLen : Nat) (k : BorrowKernel),
      sizeT * start ≤ USIZE_MAX → start ≤ stop →
      sizeT * (stop - start) ≤ USIZE_MAX →
      (l.write_range sizeT start stop srcLen k = .ok () ↔
        (k l.lender l.index (sizeT * start) (srcLen * sizeT)).1 = 0 ∧
        (k l.lender l.index (sizeT * start) (srcLen * sizeT)).2 =
          sizeT * (stop - start)) ∧
      (l.write_range sizeT start stop srcLen k = .ok () ∨
        l.write_range sizeT start stop srcLen k = .fail)) ∧
    (∀ (l : Leased) (sizeT start stop destLen destLen' rc cl : Nat),
      l.read_range sizeT start stop destLen (fun _ _ _ _ => (rc, cl)) =
        l.read_range sizeT start stop destLen' (fun _ _ _ _ => (rc, cl))) ∧
    (∀ (l : Leased) (sizeT start stop srcLen srcLen' rc cl : Nat),
      l.write_range sizeT start stop srcLen (fun _ _ _ _ => (rc, cl)) =
        l.write_range sizeT start stop srcLen' (fun _ _ _ _ => (rc, cl))) := by
  refine ⟨?_, ?_, ?_, ?_⟩
  · intro l sizeT start stop destLen k h1 h2 h3
    rw [read_range_eq l sizeT start stop destLen k h1 h2 h3]
    exact ⟨copyOutcome_ok_iff _ _, copyOutcome_ok_or_fail _ _⟩
  · intro l sizeT start stop srcLen k h1 h2 h3
    rw [write_range_eq l sizeT start stop srcLen k h1 h2 h3]
    exact ⟨copyOutcome_ok_iff _ _, copyOutcome_ok_or_fail _ _⟩
  · intro l sizeT start stop destLen destLen' rc cl
    rfl
  · intro l sizeT start stop srcLen srcLen' rc cl
    rfl

/-- C10 witness: a two-element range read into a five-element buffer; the
syscall sees the full 20-byte buffer and success needs exactly 8 bytes. -/
theorem range_ignores_buffer_len_witness :
    4 * 1 ≤ USIZE_MAX ∧ (1 : Nat) ≤ 3 ∧ 4 * (3 - 1) ≤ USIZE_MAX ∧
    (Leased.read_range ⟨1, 0, 3⟩ 4 1 3 5 (fun _ _ _ _ => (0, 8)) = .ok () ↔
      ((fun _ _ _ _ => ((0 : Nat), (8 : Nat))) 1 0 (4 * 1) (5 * 4)).1 = 0 ∧
      ((fun _ _ _ _ => ((0 : Nat), (8 : Nat))) 1 0 (4 * 1) (5 * 4)).2 =
        4 * (3 - 1)) :=
  ⟨by decide, by decide, by decide,
    (range_ignores_buffer_len.1 ⟨1, 0, 3⟩ 4 1 3 5 (fun _ _ _ _ => (0, 8))
      (by decide) (by decide) (by decide)).1⟩

theorem check_sized_ok (sizeT req : Nat) (info : BorrowInfo)
    (h : check_sized sizeT req (some info) = some ()) :
    containsAttrs info.attributes req = true ∧ info.len = sizeT := by
  by_cases hA : containsAttrs info.attributes req = true
  · by_cases hl : info.len = sizeT
    · exact ⟨hA, hl⟩
    · simp [check_sized, hA, hl] at h
  · simp [check_sized, hA] at h

theorem check_slice_ok_len (sizeT req n : Nat) (max_len : Option Nat)
    (info : BorrowInfo)
    (h : check_slice sizeT req max_len (some info) = .ok n) :
    containsAttrs info.attributes req = true ∧ info.len % sizeT = 0 ∧
      n = info.len / sizeT ∧ n * sizeT = info.len := by
  by_cases hA : containsAttrs info.attributes req = true
  · by_cases hS : sizeT = 0
    · simp [check_slice, usizeRem, hA, hS] at h
    · by_cases hmod : info.len % sizeT = 0
      · have hdvd : sizeT ∣ info.len := Nat.dvd_of_mod_eq_zero hmod
        cases max_len with
        | none =>
          simp [check_slice, usizeRem, usizeDiv, hA, hS, hmod] at h
          exact ⟨hA, hmod, h.symm, by
            rw [← h]
            exact Nat.div_mul_cancel hdvd⟩
        | some m =>
          by_cases hle : info.len / sizeT > m
          · simp [check_slice, usizeRem, usizeDiv, hA, hS, hmod, hle] at h
          · simp [check_slice, usizeRem, usizeDiv, hA, hS, hmod, hle] at h
            exact ⟨hA, hmod, h.symm, by
              rw [← h]
              exact Nat.div_mul_cancel hdvd⟩
      · simp [check_slice, usizeRem, hA, hS, hmod] at h
  · simp [check_slice, hA] at h

/-- C5: when the borrow info query succeeds and the reported attributes
contain the required capability, the slice constructors build a handle iff
the reported byte length is an exact multiple of the element size and the
element count does not exceed any supplied maximum; the handle's cached
length is len / size, and in every other case construction is the absent
value. Element sizes are positive (a Rust slice lease of a zero-size type
would divide by zero). -/
theorem slice_construction_iff :
    ∀ (lender index sizeT : Nat) (max_len : Option Nat) (info : BorrowInfo),
      0 < sizeT →
      (containsAttrs info.attributes ATTR_READ = true →
        ((read_only_slice lender index sizeT max_len (some info) =
            .ok { lender := lender, index := index,
                  len := info.len / sizeT } ↔
          info.len % sizeT = 0 ∧
            ∀ m, max_len = some m → info.len / sizeT ≤ m) ∧
        (¬ (info.len % sizeT = 0 ∧
              ∀ m, max_len = some m → info.len / sizeT ≤ m) →
          read_only_slice lender index sizeT max_len (some info) =
            .fail))) ∧
      (containsAttrs info.attributes ATTR_WRITE = true →
        ((write_only_slice lender index sizeT max_len (some info) =
            .ok { lender := lender, index := index,
                  len := info.len / sizeT } ↔
          info.len % sizeT = 0 ∧
            ∀ m, max_len = some m → info.len / sizeT ≤ m) ∧
        (¬ (info.len % sizeT = 0 ∧
              ∀ m, max_len = some m → info.len / sizeT ≤ m) →
          write_only_slice lender index sizeT max_len (some info) =
            .fail))) := by
  intro lender index sizeT max_len info hS
  have hS' : sizeT ≠ 0 := by omega
  constructor
  · intro hA
    have hc := check_slice_ok_iff sizeT ATTR_READ max_len info hS' hA
    rcases hc.2 with heq | heq
    · have hcond := hc.1.mp heq
      refine ⟨?_, fun hn => absurd hcond hn⟩
      simp only [read_only_slice, heq]
      exact ⟨fun _ => hcond, fun _ => trivial⟩
    · have hncond : ¬ (info.len % sizeT = 0 ∧
          ∀ m, max_len = some m → info.len / sizeT ≤ m) := by
        intro hcond
        rw [hc.1.mpr hcond] at heq
        exact PRes.noConfusion heq
      refine ⟨?_, fun _ => by simp [read_only_slice, heq]⟩
      simp only [read_only_slice, heq]
      constructor
      · intro hk
        exact absurd hk (by simp)
      · intro hk
        exact absurd hk hncond
  · intro hA
    have hc := check_slice_ok_iff sizeT ATTR_WRITE max_len info hS' hA
    rcases hc.2 with heq | heq
    · have hcond := hc.1.mp heq
      refine ⟨?_, fun hn => absurd hcond hn⟩
      simp only [write_only_slice, heq]
      exact ⟨fun _ => hcond, fun _ => trivial⟩
    · have hncond : ¬ (info.len % sizeT = 0 ∧
          ∀ m, max_len = some m → info.len / sizeT ≤ m) := by
        intro hcond
        rw [hc.1.mpr hcond] at heq
        exact PRes.noConfusion heq
      refine ⟨?_, fun _ => by simp [write_only_slice, heq]⟩
      simp only [write_only_slice, heq]
      constructor
      · intro hk
        exact absurd hk (by simp)
      · intro hk
        exact absurd hk hncond

/-- C5 witness: a 12-byte region of 4-byte elements with max 5 constructs a
3-element read-only handle. -/
theorem slice_construction_iff_witness :
    (0 : Nat) < 4 ∧ containsAttrs 3 ATTR_READ = true ∧
    read_only_slice 1 0 4 (some 5) (some { len := 12, attributes := 3 }) =
      .ok { lender := 1, index := 0, len := 12 / 4 } :=
  ⟨by decide, by decide,
    ((slice_construction_iff 1 0 4 (some 5) { len := 12, attributes := 3 }
        (by decide)).1 (by decide)).1.mpr
      ⟨by decide, by
        intro m hm
        cases hm
        decide⟩⟩

/-- C6: every one of the four lease constructors refuses to build a handle
when the reported attributes lack the access bit its capability requires:
read constructors need the READ bit, write constructors the WRITE bit, and
otherwise the result is the absent value. -/
theorem construction_requires_attrs :
    ∀ (lender index sizeT : Nat) (max_len : Option Nat) (info : BorrowInfo),
      (containsAttrs info.attributes ATTR_READ = false →
        read_only lender index sizeT (some info) = none ∧
        read_only_slice lender index sizeT max_len (some info) = .fail) ∧
      (containsAttrs info.attributes ATTR_WRITE = false →
        write_only lender index sizeT (some info) = none ∧
        write_only_slice lender index sizeT max_len (some info) = .fail) := by
  intro lender index sizeT max_len info
  constructor <;> intro h <;>
    simp [read_only, write_only, read_only_slice, write_only_slice,
      check_sized, check_slice, h]

/-- C6 witness: attributes 2 (WRITE only) defeat the read constructors and
attributes 1 (READ only) defeat the write constructors. -/
theorem construction_requires_attrs_witness :
    containsAttrs 2 ATTR_READ = false ∧
    read_only 1 0 4 (some { len := 4, attributes := 2 }) = none ∧
    read_only_slice 1 0 4 none (some { len := 4, attributes := 2 }) =
      .fail ∧
    containsAttrs 1 ATTR_WRITE = false ∧
    write_only 1 0 4 (some { len := 4, attributes := 1 }) = none ∧
    write_only_slice 1 0 4 none (some { len := 4, attributes := 1 }) =
      .fail := by
  have hr := (construction_requires_attrs 1 0 4 none
    { len := 4, attributes := 2 }).1 (by decide)
  have hw := (construction_requires_attrs 1 0 4 none
    { len := 4, attributes := 1 }).2 (by decide)
  exact ⟨by decide, hr.1, hr.2, by decide, hw.1, hw.2⟩

/-- C7: every successfully constructed handle satisfies
element count times element size equals the reported byte length: the
single-element constructors insist the byte length equal the element size
exactly and cache a count of 1, and the slice constructors only succeed on
exact multiples, caching len / size. -/
theorem lease_size_invariant :
    (∀ (lender index sizeT : Nat) (info : BorrowInfo) (h : Leased),
      read_only lender index sizeT (some info) = some h →
      info.len = sizeT ∧ h.len = 1 ∧ h.len * sizeT = info.len) ∧
    (∀ (lender index sizeT : Nat) (info : BorrowInfo) (h : Leased),
      write_only lender index sizeT (some info) = some h →
      info.len = sizeT ∧ h.len = 1 ∧ h.len * sizeT = info.len) ∧
    (∀ (lender index sizeT : Nat) (max_len : Option Nat)
        (info : BorrowInfo) (h : Leased),
      read_only_slice lender index sizeT max_len (some info) = .ok h →
      info.len % sizeT = 0 ∧ h.len = info.len / sizeT ∧
        h.len * sizeT = info.len) ∧
    (∀ (lender index sizeT : Nat) (max_len : Option Nat)
        (info : BorrowInfo) (h : Leased),
      write_only_slice lender index sizeT max_len (some info) = .ok h →
      info.len % sizeT = 0 ∧ h.len = info.len / sizeT ∧
        h.len * sizeT = info.len) := by
  refine ⟨?_, ?_, ?_, ?_⟩
  · intro lender index sizeT info h hh
    match hc : check_sized sizeT ATTR_READ (some info) with
    | none =>
      simp [read_only, hc] at hh
    | some _ =>
      have hs := check_sized_ok sizeT ATTR_READ info hc
      simp [read_only, hc] at hh
      rw [← hh]
      exact ⟨hs.2, rfl, by simpa using hs.2.symm⟩
  · intro lender index sizeT info h hh
    match hc : check_sized sizeT ATTR_WRITE (some info) with
    | none =>
      simp [write_only, hc] at hh
    | some _ =>
      have hs := check_sized_ok sizeT ATTR_WRITE info hc
      simp [write_only, hc] at hh
      rw [← hh]
      exact ⟨hs.2, rfl, by simpa using hs.2.symm⟩
  · intro lender index sizeT max_len info h hh
    match hc : check_slice sizeT ATTR_READ max_len (some info) with
    | .panic =>
      simp [read_only_slice, hc] at hh
    | .fail =>
      simp [read_only_slice, hc] at hh
    | .ok n =>
      have hs := check_slice_ok_len sizeT ATTR_READ n max_len info hc
      simp [read_only_slice, hc] at hh
      rw [← hh]
      exact ⟨hs.2.1, hs.2.2.1, hs.2.2.2⟩
  · intro lender index sizeT max_len info h hh
    match hc : check_slice sizeT ATTR_WRITE max_len (some info) with
    | .panic =>
      simp [write_only_slice, hc] at hh
    | .fail =>
      simp [write_only_slice, hc] at hh
    | .ok n =>
      have hs := check_slice_ok_len sizeT ATTR_WRITE n max_len info hc
      simp [write_only_slice, hc] at hh
      rw [← hh]
      exact ⟨hs.2.1, hs.2.2.1, hs.2.2.2⟩

/-- C7 witness: a successful 4-byte single-element construction has count 1
and count times size equals the byte length. -/
theorem lease_size_invariant_witness :
    read_only 1 0 4 (some { len := 4, attributes := 1 }) =
      some { lender := 1, index := 0, len := 1 } ∧
    ({ len := 4, attributes := 1 } : BorrowInfo).len = 4 ∧
    ({ lender := 1, index := 0, len := 1 } : Leased).len = 1 ∧
    ({ lender := 1, index := 0, len := 1 } : Leased).len * 4 =
      ({ len := 4, attributes := 1 } : BorrowInfo).len := by
  have hc : read_only 1 0 4 (some { len := 4, attributes := 1 }) =
      some { lender := 1, index := 0, len := 1 } := by decide
  have hs := lease_size_invariant.1 1 0 4 { len := 4, attributes := 1 }
    { lender := 1, index := 0, len := 1 } hc
  exact ⟨hc, hs.1, hs.2.1, hs.2.2⟩

/-- C1 counterexample: an incoming message of 3 bytes against an empty
scratch buffer makes dispatch_n panic while slicing the buffer — it sends
no reply at all, in particular not the status-2 reply the claim requires,
though the handler is indeed never invoked. -/
theorem dispatch_n_oversized_counterexample :
    dispatch_n (fun n => some n) (fun _ => 0) (fun _ _ _ => Except.ok ()) []
        (.ok { sender := 5, operation := 0, message_len := 3,
               response_capacity := 10 }) =
      { replies := [], handlerInvoked := false, notified := none,
        closedFail := false, panicked := true } ∧
    (dispatch_n (fun n => some n) (fun _ => 0) (fun _ _ _ => Except.ok ())
        []
        (.ok { sender := 5, operation := 0, message_len := 3,
               response_capacity := 10 })).replies ≠
      [(5, 2, [])] := by
  exact ⟨by decide, by decide⟩

/-- C1 (amended): dispatch performs both bound checks after resolving the
operation and before the handler: an oversized incoming message or an
insufficient reply capacity yields exactly one reply, status 2 with an
empty payload, and the handler never runs. dispatch_n performs only the
reply-capacity check that way; an incoming message longer than the scratch
buffer instead panics while slicing the buffer, before operation
resolution, with no reply sent and the handler never run. -/
theorem dispatch_bound_checks :
    (∀ (Op : Type) (fromU32 : Nat → Option Op) (maxReply : Op → Nat)
        (handler : Op → List Nat → RecvMessage → Except Nat Unit)
        (buffer : List Nat) (rm : RecvMessage) (op : Op),
      fromU32 rm.operation = some op →
      (buffer.length < rm.message_len ∨
        rm.response_capacity < maxReply op) →
      dispatch fromU32 maxReply handler buffer (.ok rm) =
        { replies := [(rm.sender, 2, [])], handlerInvoked := false,
          notified := none, closedFail := false, panicked := false }) ∧
    (∀ (Op : Type) (fromU32 : Nat → Option Op) (maxReply : Op → Nat)
        (handler : Op → List Nat → RecvMessage → Except Nat Unit)
        (buffer : List Nat) (rm : RecvMessage) (op : Op),
      rm.sender ≠ KERNEL_TASK →
      rm.message_len ≤ buffer.length →
      fromU32 rm.operation = some op →
      rm.response_capacity < maxReply op →
      dispatch_n fromU32 maxReply handler buffer (.ok rm) =
        { replies := [(rm.sender, 2, [])], handlerInvoked := false,
          notified := none, closedFail := false, panicked := false }) ∧
    (∀ (Op : Type) (fromU32 : Nat → Option Op) (maxReply : Op → Nat)
        (handler : Op → List Nat → RecvMessage → Except Nat Unit)
        (buffer : List Nat) (rm : RecvMessage),
      rm.sender ≠ KERNEL_TASK →
      buffer.length < rm.message_len →
      dispatch_n fromU32 maxReply handler buffer (.ok rm) =
        { replies := [], handlerInvoked := false, notified := none,
          closedFail := false, panicked := true }) := by
  refine ⟨?_, ?_, ?_⟩
  · intro Op fromU32 maxReply handler buffer rm op hop hcond
    simp only [dispatch, hop]
    rw [if_pos hcond]
  · intro Op fromU32 maxReply handler buffer rm op hs hlen hop hcap
    have hnl : ¬ buffer.length < rm.message_len := by omega
    simp only [dispatch_n, hop]
    rw [if_neg hs, if_neg hnl, if_pos hcap]
  · intro Op fromU32 maxReply handler buffer rm hs hlen
    simp only [dispatch_n]
    rw [if_neg hs, if_pos hlen]

/-- C1 witness: concrete instances of all three amended conclusions. -/
theorem dispatch_bound_checks_witness :
    dispatch (fun n => some n) (fun _ => 4) (fun _ _ _ => Except.ok ()) [7]
        (.ok { sender := 9, operation := 0, message_len := 3,
               response_capacity := 10 }) =
      { replies := [(9, 2, [])], handlerInvoked := false, notified := none,
        closedFail := false, panicked := false } ∧
    dispatch_n (fun n => some n) (fun _ => 4) (fun _ _ _ => Except.ok ())
        [7]
        (.ok { sender := 9, operation := 0, message_len := 1,
               response_capacity := 2 }) =
      { replies := [(9, 2, [])], handlerInvoked := false, notified := none,
        closedFail := false, panicked := false } ∧
    dispatch_n (fun n => some n) (fun _ => 4) (fun _ _ _ => Except.ok ()) []
        (.ok { sender := 9, operation := 0, message_len := 1,
               response_capacity := 9 }) =
      { replies := [], handlerInvoked := false, notified := none,
        closedFail := false, panicked := true } := by
  refine ⟨dispatch_bound_checks.1 Nat _ _ _ _ _ 0 rfl (Or.inl (by decide)),
    dispatch_bound_checks.2.1 Nat _ _ _ _ _ 0 (by decide) (by decide) rfl
      (by decide),
    dispatch_bound_checks.2.2 Nat _ _ _ _ _ (by decide) (by decide)⟩

/-- C9 counterexample: a 3-byte message against an empty scratch buffer
whose operation code decodes to no variant makes dispatch_n panic before
the operation is even resolved — no status-1 reply is sent. -/
theorem dispatch_n_unknown_op_counterexample :
    dispatch_n (fun _ => (none : Option Nat)) (fun _ => 0)
        (fun _ _ _ => Except.ok ()) []
        (.ok { sender := 6, operation := 7, message_len := 3,
               response_capacity := 10 }) =
      { replies := [], handlerInvoked := false, notified := none,
        closedFail := false, panicked := true } ∧
    (dispatch_n (fun _ => (none : Option Nat)) (fun _ => 0)
        (fun _ _ _ => Except.ok ()) []
        (.ok { sender := 6, operation := 7, message_len := 3,
               response_capacity := 10 })).replies ≠
      [(6, 1, [])] := by
  exact ⟨by decide, by decide⟩

/-- C9 (amended): a message whose operation code has no matching variant
yields exactly one reply, status 1 with an empty payload, and the handler
never runs — unconditionally in dispatch, and in dispatch_n provided the
message came from a task (not the kernel) and fits the scratch buffer
(otherwise dispatch_n panics while slicing the buffer before resolving the
operation). -/
theorem unknown_op_reply :
    (∀ (Op : Type) (fromU32 : Nat → Option Op) (maxReply : Op → Nat)
        (handler : Op → List Nat → RecvMessage → Except Nat Unit)
        (buffer : List Nat) (rm : RecvMessage),
      fromU32 rm.operation = none →
      dispatch fromU32 maxReply handler buffer (.ok rm) =
        { replies := [(rm.sender, 1, [])], handlerInvoked := false,
          notified := none, closedFail := false, panicked := false }) ∧
    (∀ (Op : Type) (fromU32 : Nat → Option Op) (maxReply : Op → Nat)
        (handler : Op → List Nat → RecvMessage → Except Nat Unit)
        (buffer : List Nat) (rm : RecvMessage),
      rm.sender ≠ KERNEL_TASK →
      rm.message_len ≤ buffer.length →
      fromU32 rm.operation = none →
      dispatch_n fromU32 maxReply handler buffer (.ok rm) =
        { replies := [(rm.sender, 1, [])], handlerInvoked := false,
          notified := none, closedFail := false, panicked := false }) := by
  constructor
  · intro Op fromU32 maxReply handler buffer rm hop
    simp only [dispatch, hop]
  · intro Op fromU32 maxReply handler buffer rm hs hlen hop
    have hnl : ¬ buffer.length < rm.message_len := by omega
    simp only [dispatch_n, hop]
    rw [if_neg hs, if_neg hnl]

/-- C9 witness: concrete unrecognized operation codes for both loops. -/
theorem unknown_op_reply_witness :
    dispatch (fun _ => (none : Option Nat)) (fun _ => 4)
        (fun _ _ _ => Except.ok ()) [7]
        (.ok { sender := 9, operation := 3, message_len := 1,
               response_capacity := 10 }) =
      { replies := [(9, 1, [])], handlerInvoked := false, notified := none,
        closedFail := false, panicked := false } ∧
    dispatch_n (fun _ => (none : Option Nat)) (fun _ => 4)
        (fun _ _ _ => Except.ok ()) [7]
        (.ok { sender := 9, operation := 3, message_len := 1,
               response_capacity := 10 }) =
      { replies := [(9, 1, [])], handlerInvoked := false, notified := none,
        closedFail := false, panicked := false } := by
  refine ⟨unknown_op_reply.1 Nat _ _ _ _ _ rfl,
    unknown_op_reply.2 Nat _ _ _ _ _ (by decide) (by decide) rfl⟩

end Idol
